import Mathlib

/- Verification of forge-bridge core components against their specification.

   The Python source is embedded shallowly:
   * `fractions.Fraction` becomes a normalized pair of integers with exact
     rational arithmetic (`Fraction` below);
   * Python `divmod` is `Int.fdiv`/`Int.fmod` (floor division), and `int()`
     applied to a `Fraction` truncates toward zero (`Fraction.toInt`);
   * dataclasses become structures, dicts become association lists that
     preserve insertion order, sets become `Finset`s;
   * UUIDs are modelled as opaque strings (registry keys) or naturals
     (event ids, session ids); `uuid.uuid4()` draws are passed in
     explicitly as parameters;
   * code that raises becomes `Except`-valued, paired with the state the
     object holds when the exception propagates. -/

namespace ForgeBridge

/- ════════════════════════════════════════════════════════════
   Python `fractions.Fraction`
   ════════════════════════════════════════════════════════════ -/

/-- Exact rational number kept normalized (gcd-reduced, positive
denominator), as `fractions.Fraction` guarantees. -/
structure Fraction where
  num : Int
  den : Int
deriving DecidableEq

namespace Fraction

/-- Normalized construction, matching `Fraction(n, d)` for `d ≠ 0`. -/
def normalize (n d : Int) : Fraction :=
  let g : Int := Int.gcd n d
  if d < 0 then ⟨-(n.tdiv g), -(d.tdiv g)⟩ else ⟨n.tdiv g, d.tdiv g⟩

/-- A Python `int` used where a `Fraction` is expected. -/
def ofInt (n : Int) : Fraction := ⟨n, 1⟩

/-- Python `Fraction * Fraction` (exact, result normalized). -/
def mul (a b : Fraction) : Fraction := normalize (a.num * b.num) (a.den * b.den)

/-- Python `int(fraction)` — truncation toward zero. -/
def toInt (a : Fraction) : Int := a.num.tdiv a.den

end Fraction

/- ════════════════════════════════════════════════════════════
   core/vocabulary.py — Timecode
   ════════════════════════════════════════════════════════════ -/

/-- `vocabulary.Timecode`: a position in hours:minutes:seconds:frames
notation with a rational frame rate and a drop-frame flag. -/
structure Timecode where
  hours   : Int := 0
  minutes : Int := 0
  seconds : Int := 0
  frames  : Int := 0
  fps : Fraction := Fraction.ofInt 24
  drop_frame : Bool := false
deriving DecidableEq

namespace Timecode

/-- `Timecode.from_frames`: `total_seconds, frames = divmod(frame_number,
int(fps))`, then `minutes, seconds = divmod(total_seconds, 60)` and
`hours, minutes = divmod(minutes, 60)`. -/
def from_frames (frame_number : Int) (fps : Fraction) : Timecode :=
  let total_seconds := frame_number.fdiv fps.toInt
  let frames := frame_number.fmod fps.toInt
  let minutes := total_seconds.fdiv 60
  let seconds := total_seconds.fmod 60
  let hours := minutes.fdiv 60
  let minutes := minutes.fmod 60
  { hours := hours, minutes := minutes, seconds := seconds, frames := frames,
    fps := fps }

/-- `Timecode.to_frames`: `int(total_seconds * self.fps) + self.frames`
where `total_seconds = hours * 3600 + minutes * 60 + seconds`. -/
def to_frames (t : Timecode) : Int :=
  let total_seconds := t.hours * 3600 + t.minutes * 60 + t.seconds
  (Fraction.mul (Fraction.ofInt total_seconds) t.fps).toInt + t.frames

end Timecode

/- ════════════════════════════════════════════════════════════
   Python dict, modelled as an insertion-ordered association list
   ════════════════════════════════════════════════════════════ -/

section Dict

variable {K V : Type} [DecidableEq K]

/-- `k in d` on a Python dict. -/
def dictHas (l : List (K × V)) (k : K) : Bool := l.any (fun p => p.1 = k)

/-- `d.get(k)` / `d[k]` lookup. -/
def dictGet : List (K × V) → K → Option V
  | [], _ => none
  | p :: rest, k => if p.1 = k then some p.2 else dictGet rest k

/-- `d[k] = v`: replaces in place when the key is present, otherwise
appends (Python dicts preserve insertion order). -/
def dictSet : List (K × V) → K → V → List (K × V)
  | [], k, v => [(k, v)]
  | p :: rest, k, v => if p.1 = k then (k, v) :: rest else p :: dictSet rest k v

/-- `d.pop(k, None)` / `del d[k]`. -/
def dictDel (l : List (K × V)) (k : K) : List (K × V) :=
  l.filter (fun p => p.1 ≠ k)

end Dict

/- ════════════════════════════════════════════════════════════
   core/registry.py — roles and relationship types
   ════════════════════════════════════════════════════════════ -/

/-- UUIDs are opaque; their canonical string form identifies them. -/
abbrev UUID := String

/-- The exception classes of `core/registry.py`.  `orphanError` carries the
name, the ref count and the referencing holder ids; the other constructors
carry what their Python counterparts store. -/
inductive RegError where
  | registryError (msg : String)
  | orphanError (name : String) (refCount : Nat) (entityIds : List String)
  | protectedEntryError (name : String)
  | unknownNameError (name : String) (registryName : String)
  | unknownKeyError (key : UUID) (registryName : String)
deriving DecidableEq

/-- `registry._Entry`: internal record wrapping a definition with ref
tracking.  `prot` is the Python `protected` flag (a Lean keyword);
`refs` is the `_refs` dict mapping holder id to a human label.  The
holder type `H` is a UUID for roles and a (source, target) pair for
relationship types. -/
structure Entry (H O : Type) where
  key : UUID
  name : String
  obj : O
  prot : Bool
  refs : List (H × String)
deriving DecidableEq

namespace Entry

variable {H O : Type} [DecidableEq H]

def ref_count (e : Entry H O) : Nat := e.refs.length

def referencing_ids (e : Entry H O) : List H := e.refs.map Prod.fst

def acquire (e : Entry H O) (holder_id : H) (label : String) : Entry H O :=
  { e with refs := dictSet e.refs holder_id label }

def release (e : Entry H O) (holder_id : H) : Entry H O :=
  { e with refs := dictDel e.refs holder_id }

end Entry

/-- Python `str.title()` (uppercase every letter that follows a
non-letter, lowercase the rest). -/
def pyTitle (s : String) : String :=
  String.mk ((s.data.foldl (fun (acc : List Char × Bool) c =>
    let c2 := if acc.2 then c.toLower else c.toUpper
    (acc.1 ++ [c2], c.isAlpha)) (([] : List Char), false)).1)

/-- Python `name.replace("_", " ")` (single-character pattern). -/
def replaceUnderscores (s : String) : String :=
  String.mk (s.data.map (fun c => if c = '_' then ' ' else c))

/-- `vocabulary.Role`: the display/config surface of a role.  The label
is `Optional` in Python but `__post_init__` always fills it, so the
constructor `Role.make` below resolves it eagerly. -/
structure Role where
  name : String
  label : String
  path_template : Option String
  order : Int
  metadata : List (String × String)
  aliases : List (String × String)
deriving DecidableEq

/-- `Role(...)` followed by `__post_init__`: a missing label defaults to
`name.replace("_", " ").title()`. -/
def Role.make (name : String) (label : Option String) (order : Int)
    (path_template : Option String)
    (aliases : List (String × String)) : Role :=
  { name := name,
    label := label.getD (pyTitle (replaceUnderscores name)),
    path_template := path_template,
    order := order,
    metadata := [],
    aliases := aliases }

/-- `registry.RoleDefinition`: a role plus its stable UUID key. -/
structure RoleDefinition where
  key : UUID
  role : Role
deriving DecidableEq

/-- `registry.RelationshipTypeDef`. -/
structure RelationshipTypeDef where
  key : UUID
  name : String
  label : String
  description : String
  directionality : String
deriving DecidableEq

/-- A role registry entry: holders are entity UUIDs. -/
abbrev RoleEntry := Entry UUID RoleDefinition

/-- A relationship-type registry entry: holders are (source, target)
edge pairs. -/
abbrev RelTypeEntry := Entry (UUID × UUID) RelationshipTypeDef

/-- `registry.RoleRegistry` state: `_by_key` and `_by_name` dicts.
Migration callbacks (`_migration_callbacks`) are notification hooks into
in-memory caches and are not part of the registry state itself, so they
are not modelled. -/
structure RoleRegistry where
  by_key : List (UUID × RoleEntry)
  by_name : List (String × UUID)
deriving DecidableEq

namespace RoleRegistry

def empty : RoleRegistry := ⟨[], []⟩

/-- `RoleRegistry.register`.  `freshKey` is the `uuid.uuid4()` draw used
when no explicit key is supplied.  Returns the Python result or the
raised exception, together with the registry state left behind. -/
def register (r : RoleRegistry) (name : String) (label : Option String)
    (order : Int) (path_template : Option String)
    (aliases : List (String × String)) (key : Option UUID)
    (role : Option Role) (prot : Bool) (freshKey : UUID) :
    Except RegError RoleDefinition × RoleRegistry :=
  if dictHas r.by_name name then
    (.error (.registryError ("Role name " ++ name ++ " is already registered.")), r)
  else
    let role2 : Role :=
      match role with
      | none => Role.make name label order path_template aliases
      | some ro => { ro with name := name }
    let rkey := key.getD freshKey
    if dictHas r.by_key rkey then
      (.error (.registryError ("Role key " ++ rkey ++ " is already registered.")), r)
    else
      let defn : RoleDefinition := ⟨rkey, role2⟩
      let entry : RoleEntry := ⟨rkey, name, defn, prot, []⟩
      (.ok defn,
       { by_key := dictSet r.by_key rkey entry,
         by_name := dictSet r.by_name name rkey })

/-- `RoleRegistry.get_key`. -/
def get_key (r : RoleRegistry) (name : String) : Except RegError UUID :=
  match dictGet r.by_name name with
  | none => .error (.unknownNameError name "role")
  | some k => .ok k

/-- `RoleRegistry.rename`: rebinds the name, keeps the key. -/
def rename (r : RoleRegistry) (old_name new_name : String) :
    Except RegError Unit × RoleRegistry :=
  match dictGet r.by_name old_name with
  | none => (.error (.unknownNameError old_name "role"), r)
  | some key =>
    if dictHas r.by_name new_name then
      (.error (.registryError ("Cannot rename " ++ old_name ++ " to " ++ new_name)), r)
    else
      match dictGet r.by_key key with
      | none => (.error (.unknownKeyError key "role"), r)  -- unreachable: maps are consistent
      | some entry =>
        let entry2 :=
          { entry with
            name := new_name,
            obj := { entry.obj with role := { entry.obj.role with name := new_name } } }
        (.ok (),
         { by_key := dictSet r.by_key key entry2,
           by_name := dictSet (dictDel r.by_name old_name) new_name key })

/-- `RoleRegistry.delete`: orphan-protected delete with optional
migration; returns the number of migrated holders. -/
def delete (r : RoleRegistry) (name : String) (migrate_to : Option String) :
    Except RegError Nat × RoleRegistry :=
  match dictGet r.by_name name with
  | none => (.error (.unknownNameError name "role"), r)
  | some key =>
    match dictGet r.by_key key with
    | none => (.error (.unknownKeyError key "role"), r)  -- unreachable: maps are consistent
    | some entry =>
      if entry.prot then
        (.error (.protectedEntryError name), r)
      else if 0 < entry.ref_count then
        match migrate_to with
        | none => (.error (.orphanError name entry.ref_count entry.referencing_ids), r)
        | some m =>
          match dictGet r.by_name m with
          | none => (.error (.unknownNameError m "role"), r)
          | some target_key =>
            if target_key = key then
              -- migrate_to names the entry being deleted: each transfer pops
              -- and re-acquires within the same entry, which is then dropped
              (.ok entry.ref_count,
               { by_key := dictDel r.by_key key,
                 by_name := dictDel r.by_name name })
            else
              match dictGet r.by_key target_key with
              | none => (.error (.unknownKeyError target_key "role"), r)  -- unreachable
              | some target =>
                let target2 :=
                  entry.refs.foldl (fun t p => t.acquire p.1 p.2) target
                (.ok entry.ref_count,
                 { by_key := dictDel (dictSet r.by_key target_key target2) key,
                   by_name := dictDel r.by_name name })
      else
        -- no live references: fall through to `del` with migrated = 0
        (.ok 0,
         { by_key := dictDel r.by_key key,
           by_name := dictDel r.by_name name })

/-- `RoleRegistry.register_usage`: raises `UnknownKeyError` when the key
is not registered. -/
def register_usage (r : RoleRegistry) (key : UUID) (holder_id : UUID)
    (label : String) : Except RegError Unit × RoleRegistry :=
  match dictGet r.by_key key with
  | none => (.error (.unknownKeyError key "role"), r)
  | some entry =>
    (.ok (), { r with by_key := dictSet r.by_key key (entry.acquire holder_id label) })

/-- `RoleRegistry.unregister_usage`: safe to call even if the key no
longer exists. -/
def unregister_usage (r : RoleRegistry) (key : UUID) (holder_id : UUID) :
    RoleRegistry :=
  match dictGet r.by_key key with
  | none => r
  | some entry =>
    { r with by_key := dictSet r.by_key key (entry.release holder_id) }

/-- `RoleRegistry.ref_count`. -/
def ref_count (r : RoleRegistry) (name : String) : Except RegError Nat :=
  match dictGet r.by_name name with
  | none => .error (.unknownNameError name "role")
  | some key =>
    match dictGet r.by_key key with
    | none => .error (.unknownKeyError key "role")  -- unreachable
    | some entry => .ok entry.ref_count

end RoleRegistry

/-- `registry.RelationshipTypeRegistry` state. -/
structure RelationshipTypeRegistry where
  by_key : List (UUID × RelTypeEntry)
  by_name : List (String × UUID)
deriving DecidableEq

namespace RelationshipTypeRegistry

def empty : RelationshipTypeRegistry := ⟨[], []⟩

/-- `RelationshipTypeRegistry.register`; the default label is
`name.replace("_", " ")` (not title-cased). -/
def register (r : RelationshipTypeRegistry) (name : String)
    (label : Option String) (description : String) (directionality : String)
    (key : Option UUID) (prot : Bool) (freshKey : UUID) :
    Except RegError RelationshipTypeDef × RelationshipTypeRegistry :=
  if dictHas r.by_name name then
    (.error (.registryError ("Relationship type " ++ name ++ " is already registered.")), r)
  else
    let rkey := key.getD freshKey
    if dictHas r.by_key rkey then
      (.error (.registryError ("Relationship type key " ++ rkey ++ " is already registered.")), r)
    else
      let typedef : RelationshipTypeDef :=
        ⟨rkey, name, label.getD (replaceUnderscores name), description, directionality⟩
      let entry : RelTypeEntry := ⟨rkey, name, typedef, prot, []⟩
      (.ok typedef,
       { by_key := dictSet r.by_key rkey entry,
         by_name := dictSet r.by_name name rkey })

/-- `RelationshipTypeRegistry.get_key`. -/
def get_key (r : RelationshipTypeRegistry) (name : String) :
    Except RegError UUID :=
  match dictGet r.by_name name with
  | none => .error (.unknownNameError name "relationship_type")
  | some k => .ok k

/-- `RelationshipTypeRegistry.register_usage`: an unknown key is skipped
silently so entity construction never crashes. -/
def register_usage (r : RelationshipTypeRegistry) (key : UUID)
    (source_id target_id : UUID) : RelationshipTypeRegistry :=
  match dictGet r.by_key key with
  | none => r
  | some entry =>
    let edge_id := (source_id, target_id)
    let label := source_id.take 8 ++ "→" ++ target_id.take 8
    { r with by_key := dictSet r.by_key key (entry.acquire edge_id label) }

/-- `RelationshipTypeRegistry.unregister_usage`: silent when the key is
absent. -/
def unregister_usage (r : RelationshipTypeRegistry) (key : UUID)
    (source_id target_id : UUID) : RelationshipTypeRegistry :=
  match dictGet r.by_key key with
  | none => r
  | some entry =>
    { r with by_key := dictSet r.by_key key (entry.release (source_id, target_id)) }

/-- `RelationshipTypeRegistry.ref_count`. -/
def ref_count (r : RelationshipTypeRegistry) (name : String) :
    Except RegError Nat :=
  match dictGet r.by_name name with
  | none => .error (.unknownNameError name "relationship_type")
  | some key =>
    match dictGet r.by_key key with
    | none => .error (.unknownKeyError key "relationship_type")  -- unreachable
    | some entry => .ok entry.ref_count

end RelationshipTypeRegistry

/-- `registry.STANDARD_ROLE_KEYS`: well-known UUIDs of the seven
standard *track* roles. -/
def STANDARD_ROLE_KEYS : List (String × UUID) :=
  [("primary",    "10000000-0000-0000-0000-000000000001"),
   ("reference",  "10000000-0000-0000-0000-000000000002"),
   ("matte",      "10000000-0000-0000-0000-000000000003"),
   ("background", "10000000-0000-0000-0000-000000000004"),
   ("foreground", "10000000-0000-0000-0000-000000000005"),
   ("color",      "10000000-0000-0000-0000-000000000006"),
   ("audio",      "10000000-0000-0000-0000-000000000007")]

/-- `traits.SYSTEM_REL_KEYS`: well-known UUIDs of the seven system
relationship types, including the process-graph axes `consumes` and
`produces`. -/
def SYSTEM_REL_KEYS : List (String × UUID) :=
  [("member_of",    "00000000-0000-0000-0000-000000000001"),
   ("version_of",   "00000000-0000-0000-0000-000000000002"),
   ("derived_from", "00000000-0000-0000-0000-000000000003"),
   ("references",   "00000000-0000-0000-0000-000000000004"),
   ("peer_of",      "00000000-0000-0000-0000-000000000005"),
   ("consumes",     "00000000-0000-0000-0000-000000000006"),
   ("produces",     "00000000-0000-0000-0000-000000000007")]

/-- `vocabulary.STANDARD_ROLES`: seven track roles and six media roles. -/
def STANDARD_ROLES : List (String × Role) :=
  [("primary",    Role.make "primary"    none 0  none [("flame", "L01"), ("role_class", "track")]),
   ("reference",  Role.make "reference"  none 1  none [("flame", "L02"), ("role_class", "track")]),
   ("matte",      Role.make "matte"      none 2  none [("flame", "L03"), ("role_class", "track")]),
   ("background", Role.make "background" none 3  none [("role_class", "track")]),
   ("foreground", Role.make "foreground" none 4  none [("role_class", "track")]),
   ("color",      Role.make "color"      none 5  none [("role_class", "track")]),
   ("audio",      Role.make "audio"      none 6  none [("role_class", "track")]),
   ("raw",        Role.make "raw"        none 10 none [("role_class", "media"), ("generation_floor", "0")]),
   ("grade",      Role.make "grade"      none 11 none [("role_class", "media"), ("generation_floor", "1")]),
   ("denoise",    Role.make "denoise"    none 12 none [("role_class", "media"), ("generation_floor", "1")]),
   ("prep",       Role.make "prep"       none 13 none [("role_class", "media"), ("generation_floor", "1")]),
   ("roto",       Role.make "roto"       none 14 none [("role_class", "media"), ("generation_floor", "1")]),
   ("comp",       Role.make "comp"       none 15 none [("role_class", "media"), ("generation_floor", "1")])]

/-- The `_builtin_rel_types` literal inside `Registry._seed`:
name ↦ (label, description, directionality).  Note: only five entries —
`consumes` and `produces` do not appear. -/
def BUILTIN_REL_TYPES : List (String × String × String × String) :=
  [("member_of",    ("member of",    "Entity belongs to a collection",         "→")),
   ("version_of",   ("version of",   "Entity is an iteration of another",      "→")),
   ("derived_from", ("derived from", "Entity was produced from another",       "→")),
   ("references",   ("references",   "Entity uses another without ownership",  "→")),
   ("peer_of",      ("peer of",      "Entities related at the same level",     "↔"))]

/-- `registry.Registry`: the top-level registry pair. -/
structure Registry where
  roles : RoleRegistry
  relationships : RelationshipTypeRegistry
deriving DecidableEq

/-- `STANDARD_ROLE_KEYS.get(name, uuid.uuid4())`: the key a standard
role is seeded under — its well-known UUID when it has one, the
`uuid.uuid4()` draw (`fresh name`) otherwise. -/
def seedKeyOf (fresh : String → UUID) (name : String) : UUID :=
  (dictGet STANDARD_ROLE_KEYS name).getD (fresh name)

/-- One iteration of the role loop in `Registry._seed`. -/
def seedRoleStep (fresh : String → UUID) (reg : RoleRegistry)
    (p : String × Role) : Except RegError RoleRegistry :=
  match reg.register p.1 none 0 none [] (some (seedKeyOf fresh p.1))
      (some p.2) true (fresh p.1) with
  | (.ok _, reg2) => .ok reg2
  | (.error e, _) => .error e

/-- The role half of `Registry._seed`: each standard role is registered
protected, with `STANDARD_ROLE_KEYS.get(name, uuid.uuid4())` as its key;
`fresh` supplies the `uuid.uuid4()` draws. -/
def Registry.seedRoles (fresh : String → UUID) : Except RegError RoleRegistry :=
  STANDARD_ROLES.foldlM (seedRoleStep fresh) RoleRegistry.empty

/-- The relationship-type half of `Registry._seed`: each of the five
`_builtin_rel_types` entries is registered protected under its
`SYSTEM_REL_KEYS[name]` key (always present for those five names). -/
def Registry.seedRelTypes : Except RegError RelationshipTypeRegistry :=
  BUILTIN_REL_TYPES.foldlM
    (fun reg p =>
      match reg.register p.1 (some p.2.1) p.2.2.1 p.2.2.2
          (dictGet SYSTEM_REL_KEYS p.1) true "" with
      | (.ok _, reg2) => .ok reg2
      | (.error e, _) => .error e)
    RelationshipTypeRegistry.empty

/-- `Registry.default()` / `Registry._seed`, parameterized by the
`uuid.uuid4()` draws used for roles without a well-known key. -/
def Registry.seed (fresh : String → UUID) : Except RegError Registry := do
  let roles ← Registry.seedRoles fresh
  let rels ← Registry.seedRelTypes
  .ok ⟨roles, rels⟩

/- Spec-side descriptions of the seeded registries, for the seeding
theorem (claim C4). -/

/-- The registry entry a seeded standard role ends up with. -/
def seedEntryOf (fresh : String → UUID) (p : String × Role) : RoleEntry :=
  ⟨seedKeyOf fresh p.1, p.1, ⟨seedKeyOf fresh p.1, { p.2 with name := p.1 }⟩,
   true, []⟩

/-- Spec-side description of the seeded role registry: all thirteen
standard roles of both classes, each protected, keyed by `seedKeyOf`. -/
def seededRolesSpec (fresh : String → UUID) : RoleRegistry :=
  { by_key := STANDARD_ROLES.map (fun p => (seedKeyOf fresh p.1, seedEntryOf fresh p)),
    by_name := STANDARD_ROLES.map (fun p => (p.1, seedKeyOf fresh p.1)) }

/-- Spec-side description of the seeded relationship-type registry:
exactly the five `_builtin_rel_types` entries, protected, under their
fixed system UUIDs. -/
def seededRelTypesSpec : RelationshipTypeRegistry :=
  { by_key := BUILTIN_REL_TYPES.map (fun p =>
      let k := (dictGet SYSTEM_REL_KEYS p.1).getD ""
      (k, ⟨k, p.1, ⟨k, p.1, p.2.1, p.2.2.1, p.2.2.2⟩, true, []⟩)),
    by_name := BUILTIN_REL_TYPES.map (fun p =>
      (p.1, (dictGet SYSTEM_REL_KEYS p.1).getD "")) }

/-- The thirteen keys the role seeding uses, in order. -/
def roleSeedKeys (fresh : String → UUID) : List UUID :=
  STANDARD_ROLES.map (fun p => seedKeyOf fresh p.1)

/- Concrete `uuid.uuid4()` draw suppliers for closed statements. -/

def exFresh1 : String → UUID := fun n => "fresh1-" ++ n

def exFresh2 : String → UUID := fun n => "fresh2-" ++ n

def seededWith (fresh : String → UUID) : Option Registry :=
  (Registry.seed fresh).toOption

/-- Whether `consumes` is a registered relationship-type name after
seeding with the given draws. -/
def consumesSeededWith (fresh : String → UUID) : Option Bool :=
  (seededWith fresh).map (fun reg => dictHas reg.relationships.by_name "consumes")

/-- Whether `produces` is a registered relationship-type name after
seeding with the given draws. -/
def producesSeededWith (fresh : String → UUID) : Option Bool :=
  (seededWith fresh).map (fun reg => dictHas reg.relationships.by_name "produces")

/-- The key the media role `raw` is bound to after seeding with the
given draws. -/
def rawKeyWith (fresh : String → UUID) : Option (Option UUID) :=
  (seededWith fresh).map (fun reg => dictGet reg.roles.by_name "raw")

/- Small concrete registries used by closed statements. -/

/-- A registry holding one protected role, `primary`. -/
def protectedOnlyReg : RoleRegistry :=
  (RoleRegistry.empty.register "primary" none 0 none [] (some "k1") none true "uX").2

/-- A registry holding one unprotected custom role, `hero`. -/
def customReg : RoleRegistry :=
  (RoleRegistry.empty.register "hero" none 0 none [] (some "kh") none false "uX").2

/-- The entry `customReg` holds for `hero`. -/
def heroEntry : RoleEntry :=
  ⟨"kh", "hero", ⟨"kh", Role.make "hero" none 0 none []⟩, false, []⟩

/- ════════════════════════════════════════════════════════════
   server/connections.py — ConnectionManager
   ════════════════════════════════════════════════════════════ -/

/-- Session UUIDs, modelled as opaque naturals. -/
abbrev SessionId := Nat

/-- Project UUIDs, modelled as opaque naturals. -/
abbrev ProjectId := Nat

/-- `connections.ConnectedClient` (the live WebSocket handle carries no
state the claims touch and is not modelled; `subscriptions` is the
Python set of project UUIDs, `last_event_id` the catch-up cursor). -/
structure ConnectedClient where
  session_id : SessionId
  client_name : String
  endpoint_type : String
  subscriptions : Finset ProjectId
  last_event_id : Option String
deriving DecidableEq

/-- `ConnectedClient.subscribes_to`: the project is in the subscription
set, or the set is empty (wildcard — receives all project events). -/
def ConnectedClient.subscribes_to (c : ConnectedClient)
    (project_id : ProjectId) : Bool :=
  decide (project_id ∈ c.subscriptions) || decide (c.subscriptions = ∅)

/-- `connections.ConnectionManager`: the `_clients` dict (session id →
client) and the `_project_subs` defaultdict (project id → set of
subscribed session ids). -/
structure ConnectionManager where
  clients : List (SessionId × ConnectedClient)
  project_subs : List (ProjectId × Finset SessionId)
deriving DecidableEq

namespace ConnectionManager

def empty : ConnectionManager := ⟨[], []⟩

/-- A read of `self._project_subs[project_id]` (defaultdict: absent key
reads as the empty set). -/
def getSubs (cm : ConnectionManager) (project_id : ProjectId) :
    Finset SessionId :=
  (dictGet cm.project_subs project_id).getD ∅

/-- `ConnectionManager.register`: adds the client with an empty
subscription set (wildcard) and the given cursor. -/
def register (cm : ConnectionManager) (session_id : SessionId)
    (client_name endpoint_type : String) (last_event_id : Option String) :
    ConnectionManager :=
  { cm with
    clients := dictSet cm.clients session_id
      ⟨session_id, client_name, endpoint_type, ∅, last_event_id⟩ }

/-- `ConnectionManager.subscribe`: a no-op when the session is unknown;
otherwise adds to the client's set and to the reverse index. -/
def subscribe (cm : ConnectionManager) (session_id : SessionId)
    (project_id : ProjectId) : ConnectionManager :=
  match dictGet cm.clients session_id with
  | none => cm
  | some c =>
    { clients := dictSet cm.clients session_id
        { c with subscriptions := insert project_id c.subscriptions },
      project_subs := dictSet cm.project_subs project_id
        (insert session_id (cm.getSubs project_id)) }

/-- `ConnectionManager.unsubscribe`: a no-op when the session is
unknown; otherwise discards from the client's set and from the reverse
index (the defaultdict materializes the project entry). -/
def unsubscribe (cm : ConnectionManager) (session_id : SessionId)
    (project_id : ProjectId) : ConnectionManager :=
  match dictGet cm.clients session_id with
  | none => cm
  | some c =>
    { clients := dictSet cm.clients session_id
        { c with subscriptions := c.subscriptions.erase project_id },
      project_subs := dictSet cm.project_subs project_id
        ((cm.getSubs project_id).erase session_id) }

/-- The wildcard clients of `broadcast`: those whose subscription set is
empty. -/
def wildcardSids (cm : ConnectionManager) : Finset SessionId :=
  ((cm.clients.filter (fun p => decide (p.2.subscriptions = ∅))).map Prod.fst).toFinset

/-- All connected session ids. -/
def allSids (cm : ConnectionManager) : Finset SessionId :=
  (cm.clients.map Prod.fst).toFinset

/-- The target set of `ConnectionManager.broadcast`: subscribers of the
project plus wildcards when a project id is given, every client when
not, minus the excluded originator. -/
def broadcastTargets (cm : ConnectionManager) (project_id : Option ProjectId)
    (exclude : Option SessionId) : Finset SessionId :=
  let t :=
    match project_id with
    | some pid => cm.getSubs pid ∪ cm.wildcardSids
    | none => cm.allSids
  match exclude with
  | some e => t.erase e
  | none => t

end ConnectionManager

/-- Python truthiness of `event_id` (`if event_id:`) — `None` and the
empty string are falsy. -/
def pyTruthy : Option String → Bool
  | none => false
  | some s => decide (s ≠ "")

/-- The condition of the cursor-update loop in `broadcast_event`:
`client.subscribes_to(project_id) if project_id else True`. -/
def eligible (project_id : Option ProjectId) (c : ConnectedClient) : Bool :=
  match project_id with
  | some pid => c.subscribes_to pid
  | none => true

/-- One client's cursor update in `broadcast_event`'s loop. -/
def cursorBump (project_id : Option ProjectId) (event_id : Option String)
    (p : SessionId × ConnectedClient) : SessionId × ConnectedClient :=
  if eligible project_id p.2 then (p.1, { p.2 with last_event_id := event_id })
  else p

namespace ConnectionManager

/-- `ConnectionManager.broadcast_event`: when `event_id` is truthy, the
loop sets `last_event_id` on every *eligible* client (note: it does not
exclude the originator), then `broadcast` targets the recipients with
the originator excluded.  Returns the updated manager and the broadcast
target set. -/
def broadcast_event (cm : ConnectionManager) (project_id : Option ProjectId)
    (originator_session_id : Option SessionId) (event_id : Option String) :
    ConnectionManager × Finset SessionId :=
  let cm2 :=
    if pyTruthy event_id then
      { cm with clients := cm.clients.map (cursorBump project_id event_id) }
    else cm
  (cm2, cm2.broadcastTargets project_id originator_session_id)

end ConnectionManager

/-- The session ids whose clients pass `broadcast_event`'s cursor-update
condition. -/
def eligibleSids (cm : ConnectionManager) (project_id : Option ProjectId) :
    Finset SessionId :=
  ((cm.clients.filter (fun p => eligible project_id p.2)).map Prod.fst).toFinset

/-- A concrete one-client manager: client 1 is subscribed to project 7,
its cursor unset, and the reverse index agrees. -/
def cmEx : ConnectionManager :=
  ⟨[(1, ⟨1, "a", "flame", {7}, none⟩)], [(7, {1})]⟩

/- ════════════════════════════════════════════════════════════
   store/repo.py and server/router.py — event log, persistence
   and the mutating message handlers
   ════════════════════════════════════════════════════════════ -/

/-- One row of the append-only `events` table.  Event UUIDs are
modelled as naturals (`id`) drawn from the store's monotone counter
(standing in for fresh `uuid4` draws); `occurred_at` is the
server-default timestamp; `payload` is kept opaque. -/
structure EventRow where
  id : Nat
  event_type : String
  session_id : Option Nat
  client_name : Option String
  project_id : Option UUID
  entity_id : Option UUID
  payload : String
  occurred_at : Nat
deriving DecidableEq

/-- `EventRepo.get_since_sequence`: look up the anchor event by primary
key; unknown cursor returns empty.  Otherwise select the events with
`occurred_at` strictly greater than the anchor's, ordered by
`occurred_at` ascending (SQL leaves ties unordered; the stable merge
sort here is one allowed realization), limited to `limit` rows. -/
def get_since_sequence (events : List EventRow) (last_event_id : Nat)
    (limit : Nat) : List EventRow :=
  match events.find? (fun ev => ev.id == last_event_id) with
  | none => []
  | some anchor =>
    ((events.filter (fun ev => decide (anchor.occurred_at < ev.occurred_at))).mergeSort
      (fun a b => decide (a.occurred_at ≤ b.occurred_at))).take limit

/-- A persisted role row (`RegistryRepo.save_role` columns). -/
structure RoleRow where
  key : UUID
  name : String
  label : String
  order : Int
deriving DecidableEq

/-- A persisted relationship-type row
(`RegistryRepo.save_relationship_type` columns). -/
structure RelTypeRow where
  key : UUID
  name : String
  label : String
  description : String
  directionality : String
deriving DecidableEq

/-- A persisted relationship edge (`relationships` table). -/
structure RelRow where
  source_id : UUID
  target_id : UUID
  rel_type_key : UUID
deriving DecidableEq

/-- A persisted location row (`locations` table). -/
structure LocationRow where
  entity_id : UUID
  path : String
  storage_type : String
  priority : Int
deriving DecidableEq

/-- The slice of the relational store the modelled handlers touch.
`next_event_id` is the supply of fresh event UUIDs; `clock` feeds
`occurred_at`; `entities` records which entity ids exist (presence is
all the modelled handlers inspect). -/
structure Store where
  events : List EventRow
  next_event_id : Nat
  clock : Nat
  role_rows : List (UUID × RoleRow)
  rel_type_rows : List (UUID × RelTypeRow)
  rel_rows : List RelRow
  entities : List UUID
  location_rows : List LocationRow
deriving DecidableEq

namespace Store

def emptyStore : Store := ⟨[], 0, 0, [], [], [], [], []⟩

/-- `EventRepo.append`: constructs the row (fresh id, default
timestamp) and adds it to the session. -/
def appendEvent (st : Store) (event_type : String) (payload : String)
    (session_id : Option Nat) (client_name : Option String)
    (project_id entity_id : Option UUID) : EventRow × Store :=
  let ev : EventRow :=
    ⟨st.next_event_id, event_type, session_id, client_name, project_id,
     entity_id, payload, st.clock⟩
  (ev, { st with events := st.events ++ [ev],
                 next_event_id := st.next_event_id + 1 })

/-- `RegistryRepo.save_role`: upsert by key; the stored label falls back
to the name when the label is empty (`role.label or role.name`). -/
def save_role (st : Store) (rd : RoleDefinition) : Store :=
  let label := if rd.role.label = "" then rd.role.name else rd.role.label
  { st with role_rows :=
      dictSet st.role_rows rd.key ⟨rd.key, rd.role.name, label, rd.role.order⟩ }

/-- `RegistryRepo.save_relationship_type`: upsert by key. -/
def save_relationship_type (st : Store) (td : RelationshipTypeDef) : Store :=
  { st with rel_type_rows :=
      dictSet st.rel_type_rows td.key ⟨td.key, td.name, td.label, td.description, td.directionality⟩ }

/-- `RelationshipRepo.save`: insert the edge unless the triple already
exists. -/
def save_relationship (st : Store) (row : RelRow) : Store :=
  if st.rel_rows.any (fun rr =>
      decide (rr.source_id = row.source_id ∧ rr.target_id = row.target_id
        ∧ rr.rel_type_key = row.rel_type_key)) then st
  else { st with rel_rows := st.rel_rows ++ [row] }

/-- `RelationshipRepo.delete`: remove every edge matching the triple. -/
def delete_relationship (st : Store) (source_id target_id rel_type_key : UUID) :
    Store :=
  { st with rel_rows := st.rel_rows.filter (fun rr =>
      decide (¬(rr.source_id = source_id ∧ rr.target_id = target_id
        ∧ rr.rel_type_key = rel_type_key))) }

/-- `LocationRepo.save_entity_locations`: delete every row for the
entity, then insert the entity's current in-memory locations. -/
def save_entity_locations (st : Store) (entity_id : UUID)
    (locs : List LocationRow) : Store :=
  { st with location_rows :=
      st.location_rows.filter (fun lr => decide (lr.entity_id ≠ entity_id)) ++ locs }

end Store

/-- `protocol.ErrorCode`. -/
inductive ErrorCode where
  | NOT_FOUND
  | ALREADY_EXISTS
  | ORPHAN_BLOCKED
  | PROTECTED
  | INVALID
  | UNAUTHORIZED
  | INTERNAL
  | UNKNOWN_TYPE
deriving DecidableEq

/-- The reply a handler produces: `protocol.ok` with a result payload of
key/value pairs, or `protocol.error`. -/
inductive Reply where
  | ok (result : List (String × String))
  | err (code : ErrorCode) (message : String)
deriving DecidableEq

def Reply.isOk : Reply → Bool
  | .ok _ => true
  | .err _ _ => false

/-- The arguments of a `broadcast_event` call made by a handler. -/
structure BroadcastCall where
  event_type : String
  project_id : Option UUID
  entity_id : Option UUID
  originator_session_id : Option Nat
  event_id : Option String
deriving DecidableEq

/-- The originating client's identity, as the router sees it. -/
structure ClientInfo where
  session_id : Nat
  client_name : String
deriving DecidableEq

/-- `Router._handle_role_register` under the `dispatch` try/except and
the `get_session` commit/rollback semantics.  `persistFails` injects a
raise inside the persistence session: the session rolls the store back
and `dispatch` turns the exception into an INTERNAL error reply — with
no code path that reverts the in-memory registry change.  Returns
(reply, registry after, store after, broadcast calls made). -/
def handle_role_register (persistFails : Bool) (reg : RoleRegistry)
    (st : Store) (client : ClientInfo) (name label : Option String)
    (order : Int) (path_template : Option String)
    (aliases : List (String × String)) (freshKey : UUID) :
    Reply × RoleRegistry × Store × List BroadcastCall :=
  if pyTruthy name = false then
    (.err .INVALID "name is required", reg, st, [])
  else
    let nm := name.getD ""
    match reg.register nm label order path_template aliases none none false freshKey with
    | (.error _, reg2) => (.err .ALREADY_EXISTS "already registered", reg2, st, [])
    | (.ok role_def, reg2) =>
      if persistFails then
        (.err .INTERNAL "Internal server error", reg2, st, [])
      else
        let st2 := st.save_role role_def
        let (db_event, st3) := st2.appendEvent "role.registered"
          ("name=" ++ nm ++ " key=" ++ role_def.key)
          (some client.session_id) (some client.client_name) none none
        (.ok [("key", role_def.key), ("name", nm)], reg2, st3,
         [⟨"role.registered", none, none, some client.session_id,
           some (toString db_event.id)⟩])

/-- `Router._handle_rel_type_register`: registers in memory and saves
the row — it appends no event and broadcasts nothing. -/
def handle_rel_type_register (persistFails : Bool)
    (rels : RelationshipTypeRegistry) (st : Store) (_client : ClientInfo)
    (name label : Option String) (description directionality : String)
    (freshKey : UUID) :
    Reply × RelationshipTypeRegistry × Store × List BroadcastCall :=
  if pyTruthy name = false then
    (.err .INVALID "name required", rels, st, [])
  else
    match rels.register (name.getD "") label description directionality
        none false freshKey with
    | (.error _, rels2) => (.err .ALREADY_EXISTS "already registered", rels2, st, [])
    | (.ok typedef, rels2) =>
      if persistFails then
        (.err .INTERNAL "Internal server error", rels2, st, [])
      else
        (.ok [("key", typedef.key), ("name", name.getD "")], rels2,
         st.save_relationship_type typedef, [])

/-- `Router._handle_relationship_create`: resolves the type, saves the
edge, and broadcasts `relationship.created` with NO `event_id` — it
appends nothing to the event log. -/
def handle_relationship_create (persistFails : Bool)
    (rels : RelationshipTypeRegistry) (st : Store) (client : ClientInfo)
    (source_id target_id rel_type : Option String) :
    Reply × Store × List BroadcastCall :=
  if (pyTruthy source_id && pyTruthy target_id && pyTruthy rel_type) = false then
    (.err .INVALID "source_id, target_id, rel_type required", st, [])
  else
    match rels.get_key (rel_type.getD "") with
    | .error _ => (.err .NOT_FOUND "Relationship type not found", st, [])
    | .ok rel_key =>
      if persistFails then (.err .INTERNAL "Internal server error", st, [])
      else
        (.ok [], st.save_relationship ⟨source_id.getD "", target_id.getD "", rel_key⟩,
         [⟨"relationship.created", none, none, some client.session_id, none⟩])

/-- `Router._handle_relationship_remove`: deletes the edge; no event,
no broadcast. -/
def handle_relationship_remove (persistFails : Bool)
    (rels : RelationshipTypeRegistry) (st : Store) (_client : ClientInfo)
    (source_id target_id rel_type : Option String) :
    Reply × Store × List BroadcastCall :=
  if (pyTruthy source_id && pyTruthy target_id && pyTruthy rel_type) = false then
    (.err .INVALID "source_id, target_id, rel_type required", st, [])
  else
    match rels.get_key (rel_type.getD "") with
    | .error _ => (.err .NOT_FOUND "Relationship type not found", st, [])
    | .ok rel_key =>
      if persistFails then (.err .INTERNAL "Internal server error", st, [])
      else
        (.ok [], st.delete_relationship (source_id.getD "") (target_id.getD "") rel_key,
         [])

/-- `Router._handle_location_add`: loads the entity (which comes back
*without* its stored locations), adds the new one, and replaces the
stored rows; broadcasts `location.added` with NO `event_id` and appends
nothing to the event log. -/
def handle_location_add (persistFails : Bool) (st : Store)
    (client : ClientInfo) (entity_id path : Option String)
    (storage_type : String) (priority : Int) :
    Reply × Store × List BroadcastCall :=
  if (pyTruthy entity_id && pyTruthy path) = false then
    (.err .INVALID "entity_id and path required", st, [])
  else
    let eid := entity_id.getD ""
    if persistFails then (.err .INTERNAL "Internal server error", st, [])
    else if eid ∈ st.entities then
      (.ok [],
       st.save_entity_locations eid [⟨eid, path.getD "", storage_type, priority⟩],
       [⟨"location.added", none, some eid, some client.session_id, none⟩])
    else (.err .NOT_FOUND "Entity not found", st, [])

/-- `Router._handle_location_remove`: loads the entity (again without
its stored locations, so the in-memory filter starts from an empty list)
and rewrites the stored rows; a missing entity is silently ok.  No
event, no broadcast. -/
def handle_location_remove (persistFails : Bool) (st : Store)
    (_client : ClientInfo) (entity_id path : Option String) :
    Reply × Store × List BroadcastCall :=
  if (pyTruthy entity_id && pyTruthy path) = false then
    (.err .INVALID "entity_id and path required", st, [])
  else
    let eid := entity_id.getD ""
    if persistFails then (.err .INTERNAL "Internal server error", st, [])
    else if eid ∈ st.entities then
      (.ok [], st.save_entity_locations eid [], [])
    else (.ok [], st, [])

/- Concrete inputs for closed statements about the handlers. -/

/-- A relationship-type registry holding `member_of` under key `r1`. -/
def relRegEx : RelationshipTypeRegistry :=
  (RelationshipTypeRegistry.empty.register "member_of" none "" "→" (some "r1")
    false "uX").2

/-- A store holding one entity `e1` and nothing else. -/
def storeEx : Store := ⟨[], 0, 0, [], [], [], ["e1"], []⟩

def clientEx : ClientInfo := ⟨10, "flame_a"⟩

/-- Three concrete event rows; `evA` and `evB` share a timestamp. -/
def evA : EventRow := ⟨1, "a", none, none, none, none, "p", 5⟩

def evB : EventRow := ⟨2, "b", none, none, none, none, "p", 5⟩

def evC : EventRow := ⟨3, "c", none, none, none, none, "p", 9⟩

/- Helper lemmas for the timecode round-trip. -/

theorem Fraction.toInt_ofInt (n : Int) : (Fraction.ofInt n).toInt = n := by
  simp [Fraction.toInt, Fraction.ofInt, Int.tdiv_one]

theorem Fraction.mul_ofInt_ofInt (a b : Int) :
    Fraction.mul (Fraction.ofInt a) (Fraction.ofInt b) = Fraction.ofInt (a * b) := by
  have hg : Int.gcd (a * b) 1 = 1 := Nat.gcd_one_right _
  simp [Fraction.mul, Fraction.ofInt, Fraction.normalize, hg, Int.tdiv_one]

/-- Claim C3 (amended): for every `Timecode` `t` with `drop_frame = false`
whose `fps` is a positive integer frame rate `n` and whose fields are in
canonical range (`0 ≤ hours`, `0 ≤ minutes < 60`, `0 ≤ seconds < 60`,
`0 ≤ frames < n`), `Timecode.from_frames (t.to_frames) t.fps = t`; in
particular the round-trip is exact at the integer rates 24, 25 and 60. -/
theorem timecode_roundtrip_integer_fps (t : Timecode) (n : Int)
    (hfps : t.fps = Fraction.ofInt n) (hn : 0 < n)
    (hdf : t.drop_frame = false)
    (hh : 0 ≤ t.hours)
    (hm0 : 0 ≤ t.minutes) (hm60 : t.minutes < 60)
    (hs0 : 0 ≤ t.seconds) (hs60 : t.seconds < 60)
    (hf0 : 0 ≤ t.frames) (hfn : t.frames < n) :
    Timecode.from_frames t.to_frames t.fps = t := by
  obtain ⟨h, m, s, f, fps, df⟩ := t
  simp only at hfps hdf hh hm0 hm60 hs0 hs60 hf0 hfn
  subst hfps hdf
  have hn0 : (0 : Int) ≤ n := le_of_lt hn
  have hne : n ≠ 0 := ne_of_gt hn
  -- to_frames reduces to (h * 3600 + m * 60 + s) * n + f
  have htf : Timecode.to_frames ⟨h, m, s, f, Fraction.ofInt n, false⟩
      = (h * 3600 + m * 60 + s) * n + f := by
    simp [Timecode.to_frames, Fraction.mul_ofInt_ofInt, Fraction.toInt_ofInt]
  rw [htf]
  unfold Timecode.from_frames
  rw [Fraction.toInt_ofInt]
  have hts : ((h * 3600 + m * 60 + s) * n + f).fdiv n = h * 3600 + m * 60 + s := by
    rw [Int.fdiv_eq_ediv _ hn0, add_comm, Int.add_mul_ediv_right _ _ hne,
      Int.ediv_eq_zero_of_lt hf0 hfn, zero_add]
  have htm : ((h * 3600 + m * 60 + s) * n + f).fmod n = f := by
    rw [Int.fmod_eq_emod _ hn0, add_comm, Int.add_mul_emod_self,
      Int.emod_eq_of_lt hf0 hfn]
  simp only [hts, htm, Timecode.mk.injEq, eq_self_iff_true, and_true]
  refine ⟨?_, ?_, ?_⟩
  · rw [Int.fdiv_eq_ediv _ (by norm_num), Int.fdiv_eq_ediv _ (by norm_num)]
    omega
  · rw [Int.fdiv_eq_ediv _ (by norm_num), Int.fmod_eq_emod _ (by norm_num)]
    omega
  · rw [Int.fmod_eq_emod _ (by norm_num)]
    omega

/-- Witness for `timecode_roundtrip_integer_fps` at the concrete timecode
01:02:03:04 at 24 fps. -/
theorem timecode_roundtrip_integer_fps_witness :
    Timecode.from_frames
      (Timecode.to_frames ⟨1, 2, 3, 4, Fraction.ofInt 24, false⟩)
      (Fraction.ofInt 24)
      = ⟨1, 2, 3, 4, Fraction.ofInt 24, false⟩ :=
  timecode_roundtrip_integer_fps ⟨1, 2, 3, 4, Fraction.ofInt 24, false⟩ 24
    rfl (by decide) rfl (by decide) (by decide) (by decide) (by decide)
    (by decide) (by decide) (by decide)

/-- Claim C3 is false as stated: at fps 30000/1001 the canonical timecode
00:00:02:00 does not survive the round-trip (it comes back as 00:00:02:01),
and at fps 24 the (non-canonical) timecode 00:00:00:24 comes back as
00:00:01:00. -/
theorem timecode_roundtrip_counterexample :
    Timecode.from_frames
        (Timecode.to_frames ⟨0, 0, 2, 0, ⟨30000, 1001⟩, false⟩) ⟨30000, 1001⟩
      ≠ ⟨0, 0, 2, 0, ⟨30000, 1001⟩, false⟩
    ∧ Timecode.from_frames
        (Timecode.to_frames ⟨0, 0, 0, 24, Fraction.ofInt 24, false⟩)
        (Fraction.ofInt 24)
      ≠ ⟨0, 0, 0, 24, Fraction.ofInt 24, false⟩ := by
  constructor
  · decide
  · decide

/- Dict helper lemmas. -/

theorem dictSet_append {K V : Type} [DecidableEq K] (l : List (K × V)) (k : K)
    (v : V) (h : dictHas l k = false) : dictSet l k v = l ++ [(k, v)] := by
  induction l with
  | nil => rfl
  | cons p rest ih =>
    simp only [dictHas, List.any_cons, Bool.or_eq_false_iff, decide_eq_false_iff_not] at h
    simp only [dictSet, h.1, if_false]
    rw [ih]
    · rfl
    · exact h.2

theorem dictHas_append {K V : Type} [DecidableEq K] (l1 l2 : List (K × V))
    (k : K) : dictHas (l1 ++ l2) k = (dictHas l1 k || dictHas l2 k) := by
  simp [dictHas, List.any_append]

theorem dictHas_singleton {K V : Type} [DecidableEq K] (k j : K) (v : V)
    (h : j ≠ k) : dictHas [(j, v)] k = false := by
  simp [dictHas, h]

/- Seeding: the fold over the standard-role list. -/

theorem seedRoles_go (fresh : String → UUID) :
    ∀ (l : List (String × Role)) (acc : RoleRegistry),
    (∀ p ∈ l, dictHas acc.by_name p.1 = false) →
    (∀ p ∈ l, dictHas acc.by_key (seedKeyOf fresh p.1) = false) →
    (l.map Prod.fst).Nodup →
    (l.map (fun p => seedKeyOf fresh p.1)).Nodup →
    List.foldlM (seedRoleStep fresh) acc l = .ok
      { by_key := acc.by_key ++ l.map (fun p => (seedKeyOf fresh p.1, seedEntryOf fresh p)),
        by_name := acc.by_name ++ l.map (fun p => (p.1, seedKeyOf fresh p.1)) }
  | [], acc => by
    intro _ _ _ _
    simp only [List.map_nil, List.append_nil, List.foldlM]
    rfl
  | p :: rest, acc => by
    intro hn hk hnodn hnodk
    have h1 : dictHas acc.by_name p.1 = false := hn p (List.mem_cons_self _ _)
    have h2 : dictHas acc.by_key (seedKeyOf fresh p.1) = false :=
      hk p (List.mem_cons_self _ _)
    have hstep : seedRoleStep fresh acc p = .ok
        ⟨acc.by_key ++ [(seedKeyOf fresh p.1, seedEntryOf fresh p)],
         acc.by_name ++ [(p.1, seedKeyOf fresh p.1)]⟩ := by
      simp [seedRoleStep, RoleRegistry.register, h1, h2, dictSet_append,
        seedEntryOf]
    have hpn : p.1 ∉ rest.map Prod.fst := by
      simp only [List.map_cons, List.nodup_cons] at hnodn
      exact hnodn.1
    have hpk : seedKeyOf fresh p.1 ∉ rest.map (fun q => seedKeyOf fresh q.1) := by
      simp only [List.map_cons, List.nodup_cons] at hnodk
      exact hnodk.1
    have ih := seedRoles_go fresh rest
      ⟨acc.by_key ++ [(seedKeyOf fresh p.1, seedEntryOf fresh p)],
       acc.by_name ++ [(p.1, seedKeyOf fresh p.1)]⟩
      (by
        intro q hq
        have hq1 : dictHas acc.by_name q.1 = false := hn q (List.mem_cons_of_mem _ hq)
        have hne : p.1 ≠ q.1 := by
          intro hcontra
          exact hpn (hcontra ▸ List.mem_map_of_mem Prod.fst hq)
        simp [dictHas_append, hq1, dictHas_singleton _ _ _ hne])
      (by
        intro q hq
        have hq1 : dictHas acc.by_key (seedKeyOf fresh q.1) = false :=
          hk q (List.mem_cons_of_mem _ hq)
        have hne : seedKeyOf fresh p.1 ≠ seedKeyOf fresh q.1 := by
          intro hcontra
          exact hpk (hcontra ▸ List.mem_map_of_mem (fun r => seedKeyOf fresh r.1) hq)
        simp [dictHas_append, hq1, dictHas_singleton _ _ _ hne])
      (by
        simp only [List.map_cons, List.nodup_cons] at hnodn
        exact hnodn.2)
      (by
        simp only [List.map_cons, List.nodup_cons] at hnodk
        exact hnodk.2)
    simp only [List.foldlM, hstep]
    show List.foldlM (seedRoleStep fresh) _ rest = _
    rw [ih]
    simp

/-- Claim C4 (amended): `Registry.default()` seeds all thirteen standard
roles of both classes (track: primary, reference, matte, background,
foreground, color, audio; media: raw, grade, denoise, prep, roto, comp),
every one with the protected flag set — the track roles under their fixed
well-known UUIDs, the media roles under freshly drawn `uuid.uuid4()` keys
— and exactly the five system relationship types member_of, version_of,
derived_from, references and peer_of, protected under their fixed UUIDs.
The system keys `consumes` and `produces` exist in `SYSTEM_REL_KEYS` but
are NOT seeded. -/
theorem registry_default_seeding (fresh : String → UUID)
    (hkeys : (roleSeedKeys fresh).Nodup) :
    Registry.seed fresh = .ok ⟨seededRolesSpec fresh, seededRelTypesSpec⟩
    ∧ dictHas seededRelTypesSpec.by_name "consumes" = false
    ∧ dictHas seededRelTypesSpec.by_name "produces" = false
    ∧ (∀ q ∈ (seededRolesSpec fresh).by_key, (q.2).prot = true)
    ∧ (∀ q ∈ seededRelTypesSpec.by_key, (q.2).prot = true)
    ∧ dictGet (seededRolesSpec fresh).by_name "primary"
        = some "10000000-0000-0000-0000-000000000001"
    ∧ dictGet (seededRolesSpec fresh).by_name "raw" = some (fresh "raw") := by
  have hroles : Registry.seedRoles fresh = .ok (seededRolesSpec fresh) := by
    have := seedRoles_go fresh STANDARD_ROLES RoleRegistry.empty
      (by intro q _; rfl) (by intro q _; rfl) (by decide) hkeys
    simpa [Registry.seedRoles, RoleRegistry.empty, seededRolesSpec] using this
  have hrels : Registry.seedRelTypes = .ok seededRelTypesSpec := rfl
  refine ⟨?_, by decide, by decide, ?_, ?_, ?_, ?_⟩
  · unfold Registry.seed
    rw [hroles, hrels]
    rfl
  · intro q hq
    obtain ⟨p, _, rfl⟩ := List.mem_map.1 hq
    rfl
  · intro q hq
    obtain ⟨p, _, rfl⟩ := List.mem_map.1 hq
    rfl
  · rfl
  · rfl

/-- Witness for `registry_default_seeding` with concrete distinct draws. -/
theorem registry_default_seeding_witness :
    Registry.seed exFresh1 = .ok ⟨seededRolesSpec exFresh1, seededRelTypesSpec⟩ :=
  (registry_default_seeding exFresh1 (by decide)).1

/-- Claim C4 is false as stated: seeding registers neither `consumes` nor
`produces` even though both have fixed system UUIDs, and the media role
`raw` is keyed by the random `uuid.uuid4()` draw (two different draw
suppliers give two different keys), not by a fixed well-known UUID. -/
theorem registry_default_seeding_counterexample :
    consumesSeededWith exFresh1 = some false
    ∧ producesSeededWith exFresh1 = some false
    ∧ rawKeyWith exFresh1 = some (some "fresh1-raw")
    ∧ rawKeyWith exFresh2 = some (some "fresh2-raw") :=
  ⟨by decide, by decide, by decide, by decide⟩

theorem dictHas_del_self {K V : Type} [DecidableEq K] (l : List (K × V))
    (k : K) : dictHas (dictDel l k) k = false := by
  induction l with
  | nil => rfl
  | cons p rest ih =>
    by_cases hp : p.1 = k
    · simp only [dictDel, dictHas, List.filter_cons, hp] at ih ⊢
      simp
    · simp only [dictDel, dictHas, List.filter_cons, hp] at ih ⊢
      simp [hp]

/-- Claim C5 (amended): for every `role.delete(name)` call without
`migrate_to` on a *registered, unprotected* name, either the call fails
with `OrphanError` (the wire code ORPHAN_BLOCKED) and the registry is
exactly as before, or the entry's ref count is zero and the call
succeeds, removing the entry from both maps.  (For a protected name the
call instead fails with `ProtectedEntryError`, see the counterexample.) -/
theorem role_delete_without_migration (r : RoleRegistry) (name : String)
    (key : UUID) (e : RoleEntry)
    (hk : dictGet r.by_name name = some key)
    (he : dictGet r.by_key key = some e)
    (hprot : e.prot = false) :
    (0 < e.ref_count ∧
      r.delete name none
        = (.error (.orphanError name e.ref_count e.referencing_ids), r))
    ∨ (e.ref_count = 0
      ∧ r.delete name none
          = (.ok 0, ⟨dictDel r.by_key key, dictDel r.by_name name⟩)
      ∧ dictHas (dictDel r.by_name name) name = false
      ∧ dictHas (dictDel r.by_key key) key = false) := by
  by_cases h : 0 < e.ref_count
  · exact Or.inl ⟨h, by simp [RoleRegistry.delete, hk, he, hprot, h]⟩
  · refine Or.inr ⟨by omega, ?_, dictHas_del_self _ _, dictHas_del_self _ _⟩
    simp [RoleRegistry.delete, hk, he, hprot, h]

/-- Witness for `role_delete_without_migration`: deleting the zero-ref
unprotected role `hero` succeeds and removes the entry. -/
theorem role_delete_without_migration_witness :
    (0 < heroEntry.ref_count ∧
      customReg.delete "hero" none
        = (.error (.orphanError "hero" heroEntry.ref_count
            heroEntry.referencing_ids), customReg))
    ∨ (heroEntry.ref_count = 0
      ∧ customReg.delete "hero" none
          = (.ok 0, ⟨dictDel customReg.by_key "kh", dictDel customReg.by_name "hero"⟩)
      ∧ dictHas (dictDel customReg.by_name "hero") "hero" = false
      ∧ dictHas (dictDel customReg.by_key "kh") "kh" = false) :=
  role_delete_without_migration customReg "hero" "kh" heroEntry rfl rfl rfl

/-- Claim C5 is false as stated over all `role.delete(name)` calls:
deleting the protected role `primary` with ref count zero neither fails
with ORPHAN_BLOCKED nor succeeds — it raises `ProtectedEntryError`
(wire code PROTECTED), leaving the registry unchanged. -/
theorem role_delete_without_migration_counterexample :
    protectedOnlyReg.delete "primary" none
        = (.error (.protectedEntryError "primary"), protectedOnlyReg)
    ∧ protectedOnlyReg.ref_count "primary" = .ok 0 :=
  ⟨rfl, rfl⟩

/-- Claim C8 (amended): `unregister_usage` is silent when the key is
absent in both registries, and the relationship-type registry's
`register_usage` silently skips an absent key; but the role registry's
`register_usage` *raises* `UnknownKeyError` for an absent key.  When the
key is present, each operation updates that entry's ref dict. -/
theorem usage_tracking_spec :
    (∀ (r : RoleRegistry) (key holder label : String),
      dictGet r.by_key key = none →
        r.register_usage key holder label
          = (.error (.unknownKeyError key "role"), r))
    ∧ (∀ (r : RoleRegistry) (key holder label : String) (e : RoleEntry),
      dictGet r.by_key key = some e →
        r.register_usage key holder label
          = (.ok (), { r with by_key := dictSet r.by_key key (e.acquire holder label) }))
    ∧ (∀ (r : RoleRegistry) (key holder : String),
      dictGet r.by_key key = none → r.unregister_usage key holder = r)
    ∧ (∀ (r : RoleRegistry) (key holder : String) (e : RoleEntry),
      dictGet r.by_key key = some e →
        r.unregister_usage key holder
          = { r with by_key := dictSet r.by_key key (e.release holder) })
    ∧ (∀ (r : RelationshipTypeRegistry) (key s t : String),
      dictGet r.by_key key = none → r.register_usage key s t = r)
    ∧ (∀ (r : RelationshipTypeRegistry) (key s t : String) (e : RelTypeEntry),
      dictGet r.by_key key = some e →
        r.register_usage key s t
          = { r with
              by_key :=
                dictSet r.by_key key (e.acquire (s, t) (s.take 8 ++ "→" ++ t.take 8)) })
    ∧ (∀ (r : RelationshipTypeRegistry) (key s t : String),
      dictGet r.by_key key = none → r.unregister_usage key s t = r)
    ∧ (∀ (r : RelationshipTypeRegistry) (key s t : String) (e : RelTypeEntry),
      dictGet r.by_key key = some e →
        r.unregister_usage key s t
          = { r with by_key := dictSet r.by_key key (e.release (s, t)) }) := by
  refine ⟨?_, ?_, ?_, ?_, ?_, ?_, ?_, ?_⟩
  · intro r key holder label h
    simp [RoleRegistry.register_usage, h]
  · intro r key holder label e h
    simp [RoleRegistry.register_usage, h]
  · intro r key holder h
    simp [RoleRegistry.unregister_usage, h]
  · intro r key holder e h
    simp [RoleRegistry.unregister_usage, h]
  · intro r key s t h
    simp [RelationshipTypeRegistry.register_usage, h]
  · intro r key s t e h
    simp [RelationshipTypeRegistry.register_usage, h]
  · intro r key s t h
    simp [RelationshipTypeRegistry.unregister_usage, h]
  · intro r key s t e h
    simp [RelationshipTypeRegistry.unregister_usage, h]

/-- Witness for `usage_tracking_spec`: the role registry raises for an
absent key. -/
theorem usage_tracking_spec_witness :
    RoleRegistry.empty.register_usage "missing" "h1" "entity"
      = (.error (.unknownKeyError "missing" "role"), RoleRegistry.empty) :=
  usage_tracking_spec.1 RoleRegistry.empty "missing" "h1" "entity" rfl

/-- Claim C8 is false as stated: the role registry's `register_usage`
raises `UnknownKeyError` for an absent key rather than staying silent. -/
theorem usage_tracking_counterexample :
    (RoleRegistry.empty.register_usage "missing" "h1" "entity").1
      = .error (.unknownKeyError "missing" "role") :=
  rfl

/-- Claim C9: every `RoleRegistry` operation that raises — register on a
duplicate name or key, rename from an unknown name or to a taken name,
delete of an unknown or protected entry, an orphan-blocked delete, or a
delete whose `migrate_to` target is unknown — returns with the registry
exactly as before the call (both maps, hence every entry and every ref
count, unchanged). -/
theorem registry_errors_leave_registry_unchanged :
    (∀ (r : RoleRegistry) (name : String) (label : Option String) (order : Int)
        (pt : Option String) (al : List (String × String)) (key : Option UUID)
        (role : Option Role) (prot : Bool) (fk : UUID),
      dictHas r.by_name name = true →
        r.register name label order pt al key role prot fk
          = (.error (.registryError ("Role name " ++ name ++ " is already registered.")), r))
    ∧ (∀ (r : RoleRegistry) (name : String) (label : Option String) (order : Int)
        (pt : Option String) (al : List (String × String)) (key : Option UUID)
        (role : Option Role) (prot : Bool) (fk : UUID),
      dictHas r.by_name name = false →
      dictHas r.by_key (key.getD fk) = true →
        r.register name label order pt al key role prot fk
          = (.error (.registryError ("Role key " ++ key.getD fk ++ " is already registered.")), r))
    ∧ (∀ (r : RoleRegistry) (old_name new_name : String),
      dictGet r.by_name old_name = none →
        r.rename old_name new_name
          = (.error (.unknownNameError old_name "role"), r))
    ∧ (∀ (r : RoleRegistry) (old_name new_name : String) (key : UUID),
      dictGet r.by_name old_name = some key →
      dictHas r.by_name new_name = true →
        r.rename old_name new_name
          = (.error (.registryError ("Cannot rename " ++ old_name ++ " to " ++ new_name)), r))
    ∧ (∀ (r : RoleRegistry) (name : String) (mt : Option String),
      dictGet r.by_name name = none →
        r.delete name mt = (.error (.unknownNameError name "role"), r))
    ∧ (∀ (r : RoleRegistry) (name : String) (mt : Option String) (key : UUID)
        (e : RoleEntry),
      dictGet r.by_name name = some key →
      dictGet r.by_key key = some e →
      e.prot = true →
        r.delete name mt = (.error (.protectedEntryError name), r))
    ∧ (∀ (r : RoleRegistry) (name : String) (key : UUID) (e : RoleEntry),
      dictGet r.by_name name = some key →
      dictGet r.by_key key = some e →
      e.prot = false →
      0 < e.ref_count →
        r.delete name none
          = (.error (.orphanError name e.ref_count e.referencing_ids), r))
    ∧ (∀ (r : RoleRegistry) (name m : String) (key : UUID) (e : RoleEntry),
      dictGet r.by_name name = some key →
      dictGet r.by_key key = some e →
      e.prot = false →
      0 < e.ref_count →
      dictGet r.by_name m = none →
        r.delete name (some m)
          = (.error (.unknownNameError m "role"), r)) := by
  refine ⟨?_, ?_, ?_, ?_, ?_, ?_, ?_, ?_⟩
  · intro r name label order pt al key role prot fk h
    simp [RoleRegistry.register, h]
  · intro r name label order pt al key role prot fk h1 h2
    simp [RoleRegistry.register, h1, h2]
  · intro r old_name new_name h
    simp [RoleRegistry.rename, h]
  · intro r old_name new_name key h1 h2
    simp [RoleRegistry.rename, h1, h2]
  · intro r name mt h
    simp [RoleRegistry.delete, h]
  · intro r name mt key e h1 h2 h3
    simp [RoleRegistry.delete, h1, h2, h3]
  · intro r name key e h1 h2 h3 h4
    simp [RoleRegistry.delete, h1, h2, h3, h4]
  · intro r name m key e h1 h2 h3 h4 h5
    simp [RoleRegistry.delete, h1, h2, h3, h4, h5]

/-- Witness for `registry_errors_leave_registry_unchanged`: registering a
duplicate of the existing name `hero` errors and leaves the registry as
it was. -/
theorem registry_errors_leave_registry_unchanged_witness :
    customReg.register "hero" none 0 none [] none none false "u2"
      = (.error (.registryError "Role name hero is already registered."), customReg) :=
  registry_errors_leave_registry_unchanged.1 customReg "hero" none 0 none []
    none none false "u2" rfl

/- Dict get/set lemmas for the connection-manager proofs. -/

theorem dictGet_set_self {K V : Type} [DecidableEq K] (l : List (K × V))
    (k : K) (v : V) : dictGet (dictSet l k v) k = some v := by
  induction l with
  | nil => simp [dictSet, dictGet]
  | cons p rest ih =>
    by_cases hp : p.1 = k
    · simp [dictSet, dictGet, hp]
    · simp [dictSet, dictGet, hp, ih]

theorem dictGet_mem {K V : Type} [DecidableEq K] (l : List (K × V)) (k : K)
    (v : V) (h : dictGet l k = some v) : (k, v) ∈ l := by
  induction l with
  | nil => simp [dictGet] at h
  | cons p rest ih =>
    by_cases hp : p.1 = k
    · simp only [dictGet, hp, if_true, Option.some.injEq] at h
      subst h
      subst hp
      exact List.mem_cons_self _ _
    · simp only [dictGet, hp, if_false] at h
      exact List.mem_cons_of_mem _ (ih h)

/- Projections of the cursor-update step. -/

theorem cursorBump_fst (project_id : Option ProjectId) (event_id : Option String)
    (p : SessionId × ConnectedClient) : (cursorBump project_id event_id p).1 = p.1 := by
  unfold cursorBump
  split <;> rfl

theorem cursorBump_subscriptions (project_id : Option ProjectId)
    (event_id : Option String) (p : SessionId × ConnectedClient) :
    (cursorBump project_id event_id p).2.subscriptions = p.2.subscriptions := by
  unfold cursorBump
  split <;> rfl

theorem filter_wildcard_map_cursorBump (l : List (SessionId × ConnectedClient))
    (project_id : Option ProjectId) (event_id : Option String) :
    ((l.map (cursorBump project_id event_id)).filter
        (fun p => decide (p.2.subscriptions = ∅))).map Prod.fst
      = (l.filter (fun p => decide (p.2.subscriptions = ∅))).map Prod.fst := by
  induction l with
  | nil => rfl
  | cons p rest ih =>
    simp only [List.map_cons, List.filter_cons, cursorBump_subscriptions]
    by_cases hp : p.2.subscriptions = ∅
    · simp [hp, cursorBump_fst, ih]
    · simp [hp, ih]

theorem map_fst_map_cursorBump (l : List (SessionId × ConnectedClient))
    (project_id : Option ProjectId) (event_id : Option String) :
    (l.map (cursorBump project_id event_id)).map Prod.fst = l.map Prod.fst := by
  induction l with
  | nil => rfl
  | cons p rest ih => simp [cursorBump_fst, ih]

/-- Claim C6 (amended): after `broadcast_event` with a truthy `event_id`,
the clients whose `last_event_id` cursor is set to it are exactly the
*eligible* clients — subscribers of `project_id` plus wildcards when it
is set, all clients when it is null — with the originator NOT excluded
from the cursor update; the broadcast target set is the eligible session
ids minus the originator.  So the originator's cursor is updated even
though it receives no broadcast. -/
theorem broadcast_event_cursor_update (cm : ConnectionManager)
    (project_id : Option ProjectId) (orig : SessionId) (e : String)
    (he : e ≠ "")
    (hsubs : ∀ pid, project_id = some pid →
      cm.getSubs pid
        = ((cm.clients.filter
            (fun p => decide (pid ∈ p.2.subscriptions))).map Prod.fst).toFinset) :
    (cm.broadcast_event project_id (some orig) (some e)).1.clients
      = cm.clients.map (cursorBump project_id (some e))
    ∧ (cm.broadcast_event project_id (some orig) (some e)).2
      = (eligibleSids cm project_id).erase orig := by
  have htruthy : pyTruthy (some e) = true := by simp [pyTruthy, he]
  constructor
  · simp [ConnectionManager.broadcast_event, htruthy]
  · simp only [ConnectionManager.broadcast_event, htruthy, if_true]
    cases project_id with
    | none =>
      simp only [ConnectionManager.broadcastTargets, ConnectionManager.allSids,
        map_fst_map_cursorBump]
      congr 1
      ext x
      simp [eligibleSids, eligible, List.mem_toFinset, List.mem_map, List.mem_filter]
    | some pid =>
      simp only [ConnectionManager.broadcastTargets]
      congr 1
      have hg : ConnectionManager.getSubs
          { cm with clients := cm.clients.map (cursorBump (some pid) (some e)) } pid
          = cm.getSubs pid := rfl
      have hw : ConnectionManager.wildcardSids
          { cm with clients := cm.clients.map (cursorBump (some pid) (some e)) }
          = cm.wildcardSids := by
        simp only [ConnectionManager.wildcardSids, filter_wildcard_map_cursorBump]
      rw [hg, hw, hsubs pid rfl]
      ext x
      simp only [Finset.mem_union, List.mem_toFinset, List.mem_map, List.mem_filter,
        eligibleSids, eligible, ConnectedClient.subscribes_to,
        ConnectionManager.wildcardSids, Bool.or_eq_true, decide_eq_true_eq]
      constructor
      · rintro (⟨p, ⟨hp, hm⟩, rfl⟩ | ⟨p, ⟨hp, hm⟩, rfl⟩)
        · exact ⟨p, ⟨hp, Or.inl hm⟩, rfl⟩
        · exact ⟨p, ⟨hp, Or.inr hm⟩, rfl⟩
      · rintro ⟨p, ⟨hp, hm | hm⟩, rfl⟩
        · exact Or.inl ⟨p, ⟨hp, hm⟩, rfl⟩
        · exact Or.inr ⟨p, ⟨hp, hm⟩, rfl⟩

/-- Witness for `broadcast_event_cursor_update` on the concrete
one-client manager. -/
theorem broadcast_event_cursor_update_witness :
    (cmEx.broadcast_event (some 7) (some 2) (some "e1")).1.clients
      = cmEx.clients.map (cursorBump (some 7) (some "e1"))
    ∧ (cmEx.broadcast_event (some 7) (some 2) (some "e1")).2
      = (eligibleSids cmEx (some 7)).erase 2 :=
  broadcast_event_cursor_update cmEx (some 7) 2 "e1" (by decide)
    (by
      intro pid h
      injection h with h2
      subst h2
      decide)

/-- Claim C6 is false as stated: on `cmEx` the broadcast of event `e1`
scoped to project 7 with originator 1 reaches nobody (the only
subscriber is excluded), yet client 1's cursor is still updated to `e1`
— a non-recipient's cursor changed. -/
theorem broadcast_event_cursor_update_counterexample :
    (cmEx.broadcast_event (some 7) (some 1) (some "e1")).2 = ∅
    ∧ dictGet (cmEx.broadcast_event (some 7) (some 1) (some "e1")).1.clients 1
        = some ⟨1, "a", "flame", {7}, some "e1"⟩ := by
  exact ⟨by decide, by decide⟩

/-- Claim C10: unsubscribing a client from its only subscribed project
returns it to the wildcard state: after `subscribe(s, P)` then
`unsubscribe(s, P)` (starting from a subscription set contained in
`{P}`), the client is in the target set of every broadcast — any
project-scoped one and the unscoped one — whenever it is not the
excluded originator. -/
theorem unsubscribe_only_project_restores_wildcard (cm : ConnectionManager)
    (s : SessionId) (P : ProjectId) (c : ConnectedClient)
    (hc : dictGet cm.clients s = some c)
    (hsub : c.subscriptions ⊆ {P}) :
    ∀ (project_id : Option ProjectId) (exclude : Option SessionId),
      exclude ≠ some s →
      s ∈ ((cm.subscribe s P).unsubscribe s P).broadcastTargets project_id exclude := by
  intro project_id exclude hex
  have h1 : (cm.subscribe s P).clients
      = dictSet cm.clients s { c with subscriptions := insert P c.subscriptions } := by
    simp [ConnectionManager.subscribe, hc]
  have h2 : dictGet (cm.subscribe s P).clients s
      = some { c with subscriptions := insert P c.subscriptions } := by
    rw [h1]
    exact dictGet_set_self _ _ _
  have hempty : (insert P c.subscriptions).erase P = ∅ := by
    rcases Finset.subset_singleton_iff.1 hsub with h | h
    · simp [h]
    · simp [h]
  have h3 : dictGet ((cm.subscribe s P).unsubscribe s P).clients s
      = some { c with subscriptions := ∅ } := by
    simp only [ConnectionManager.unsubscribe, h2]
    rw [dictGet_set_self]
    simp [hempty]
  have hmem : (s, { c with subscriptions := (∅ : Finset ProjectId) })
      ∈ ((cm.subscribe s P).unsubscribe s P).clients :=
    dictGet_mem _ _ _ h3
  have hwild : s ∈ ((cm.subscribe s P).unsubscribe s P).wildcardSids := by
    simp only [ConnectionManager.wildcardSids, List.mem_toFinset, List.mem_map,
      List.mem_filter]
    exact ⟨(s, { c with subscriptions := ∅ }), ⟨hmem, by simp⟩, rfl⟩
  have hall : s ∈ ((cm.subscribe s P).unsubscribe s P).allSids := by
    simp only [ConnectionManager.allSids, List.mem_toFinset, List.mem_map]
    exact ⟨(s, { c with subscriptions := ∅ }), hmem, rfl⟩
  have hin : s ∈ (match project_id with
      | some pid => ((cm.subscribe s P).unsubscribe s P).getSubs pid
          ∪ ((cm.subscribe s P).unsubscribe s P).wildcardSids
      | none => ((cm.subscribe s P).unsubscribe s P).allSids) := by
    cases project_id with
    | none => exact hall
    | some pid => exact Finset.mem_union_right _ hwild
  cases exclude with
  | none => exact hin
  | some x =>
    have hxs : s ≠ x := by
      intro hcontra
      exact hex (by rw [hcontra])
    exact Finset.mem_erase.2 ⟨hxs, hin⟩

/-- Witness for `unsubscribe_only_project_restores_wildcard` on the
concrete manager `cmEx`. -/
theorem unsubscribe_only_project_restores_wildcard_witness :
    1 ∈ ((cmEx.subscribe 1 7).unsubscribe 1 7).broadcastTargets (some 9) none :=
  unsubscribe_only_project_restores_wildcard cmEx 1 7 ⟨1, "a", "flame", {7}, none⟩
    rfl (by decide) (some 9) none (by decide)

theorem save_relationship_events (st : Store) (row : RelRow) :
    (st.save_relationship row).events = st.events := by
  unfold Store.save_relationship
  split <;> rfl

theorem dictHas_set_self {K V : Type} [DecidableEq K] (l : List (K × V))
    (k : K) (v : V) : dictHas (dictSet l k v) k = true := by
  induction l with
  | nil => simp [dictSet, dictHas]
  | cons p rest ih =>
    by_cases hp : p.1 = k
    · simp [dictSet, dictHas, hp]
    · simp only [dictSet]
      rw [if_neg hp]
      have hcons : dictHas (p :: dictSet rest k v) k
          = (decide (p.1 = k) || dictHas (dictSet rest k v) k) := rfl
      rw [hcons, ih]
      simp

/-- Claim C1 (amended): a successful `role.register` appends exactly one
event — in the same persistence run as the role-row write — whose fresh
id the broadcast carries, and an id drawn from the fresh supply never
collides with an existing event; but the graph handlers
(`relationship.create`, `relationship.remove`, `location.add`,
`location.remove`) and `rel_type.register` mutate state and reply ok
while appending NO event (their broadcasts, when any, carry no
event id). -/
theorem router_event_append_spec :
    (∀ (reg : RoleRegistry) (st : Store) (client : ClientInfo) (nm : String)
        (label : Option String) (order : Int) (pt : Option String)
        (al : List (String × String)) (fk : UUID) (rd : RoleDefinition)
        (reg2 : RoleRegistry),
      nm ≠ "" →
      reg.register nm label order pt al none none false fk = (.ok rd, reg2) →
        (handle_role_register false reg st client (some nm) label order pt al fk).1.isOk = true
        ∧ (handle_role_register false reg st client (some nm) label order pt al fk).2.2.1.events
            = st.events ++ [⟨st.next_event_id, "role.registered",
                some client.session_id, some client.client_name, none, none,
                "name=" ++ nm ++ " key=" ++ rd.key, st.clock⟩]
        ∧ (handle_role_register false reg st client (some nm) label order pt al fk).2.2.1.role_rows
            = dictSet st.role_rows rd.key
                ⟨rd.key, rd.role.name,
                 (if rd.role.label = "" then rd.role.name else rd.role.label),
                 rd.role.order⟩
        ∧ (handle_role_register false reg st client (some nm) label order pt al fk).2.2.2
            = [⟨"role.registered", none, none, some client.session_id,
                some (toString st.next_event_id)⟩])
    ∧ (∀ (st : Store), (∀ ev ∈ st.events, ev.id < st.next_event_id) →
        st.next_event_id ∉ st.events.map EventRow.id)
    ∧ (∀ (rels : RelationshipTypeRegistry) (st : Store) (client : ClientInfo)
        (nm : String) (label : Option String) (desc dir : String) (fk : UUID)
        (td : RelationshipTypeDef) (rels2 : RelationshipTypeRegistry),
      nm ≠ "" →
      rels.register nm label desc dir none false fk = (.ok td, rels2) →
        (handle_rel_type_register false rels st client (some nm) label desc dir fk).1.isOk = true
        ∧ (handle_rel_type_register false rels st client (some nm) label desc dir fk).2.2.1.events
            = st.events
        ∧ (handle_rel_type_register false rels st client (some nm) label desc dir fk).2.2.2 = [])
    ∧ (∀ (rels : RelationshipTypeRegistry) (st : Store) (client : ClientInfo)
        (s t rt : String) (rel_key : UUID),
      s ≠ "" → t ≠ "" → rt ≠ "" →
      rels.get_key rt = .ok rel_key →
        (handle_relationship_create false rels st client (some s) (some t) (some rt)).1.isOk = true
        ∧ (handle_relationship_create false rels st client (some s) (some t) (some rt)).2.1.events
            = st.events
        ∧ (handle_relationship_create false rels st client (some s) (some t) (some rt)).2.2
            = [⟨"relationship.created", none, none, some client.session_id, none⟩])
    ∧ (∀ (rels : RelationshipTypeRegistry) (st : Store) (client : ClientInfo)
        (s t rt : String) (rel_key : UUID),
      s ≠ "" → t ≠ "" → rt ≠ "" →
      rels.get_key rt = .ok rel_key →
        (handle_relationship_remove false rels st client (some s) (some t) (some rt)).1.isOk = true
        ∧ (handle_relationship_remove false rels st client (some s) (some t) (some rt)).2.1.events
            = st.events
        ∧ (handle_relationship_remove false rels st client (some s) (some t) (some rt)).2.2 = [])
    ∧ (∀ (st : Store) (client : ClientInfo) (e p sTy : String) (pr : Int),
      e ≠ "" → p ≠ "" → e ∈ st.entities →
        (handle_location_add false st client (some e) (some p) sTy pr).1.isOk = true
        ∧ (handle_location_add false st client (some e) (some p) sTy pr).2.1.events = st.events
        ∧ (handle_location_add false st client (some e) (some p) sTy pr).2.2
            = [⟨"location.added", none, some e, some client.session_id, none⟩])
    ∧ (∀ (st : Store) (client : ClientInfo) (e p : String),
      e ≠ "" → p ≠ "" →
        (handle_location_remove false st client (some e) (some p)).1.isOk = true
        ∧ (handle_location_remove false st client (some e) (some p)).2.1.events = st.events
        ∧ (handle_location_remove false st client (some e) (some p)).2.2 = []) := by
  refine ⟨?_, ?_, ?_, ?_, ?_, ?_, ?_⟩
  · intro reg st client nm label order pt al fk rd reg2 hnm hreg
    refine ⟨?_, ?_, ?_, ?_⟩ <;>
      simp [handle_role_register, pyTruthy, hnm, hreg, Store.save_role,
        Store.appendEvent, Reply.isOk]
  · intro st h hmem
    obtain ⟨ev, hev, hid⟩ := List.mem_map.1 hmem
    exact absurd (hid ▸ h ev hev) (lt_irrefl _)
  · intro rels st client nm label desc dir fk td rels2 hnm hreg
    refine ⟨?_, ?_, ?_⟩ <;>
      simp [handle_rel_type_register, pyTruthy, hnm, hreg,
        Store.save_relationship_type, Reply.isOk]
  · intro rels st client s t rt rel_key hs ht hrt hkey
    refine ⟨?_, ?_, ?_⟩ <;>
      simp [handle_relationship_create, pyTruthy, hs, ht, hrt, hkey,
        save_relationship_events, Reply.isOk]
  · intro rels st client s t rt rel_key hs ht hrt hkey
    refine ⟨?_, ?_, ?_⟩ <;>
      simp [handle_relationship_remove, pyTruthy, hs, ht, hrt, hkey,
        Store.delete_relationship, Reply.isOk]
  · intro st client e p sTy pr he hp hmem
    refine ⟨?_, ?_, ?_⟩ <;>
      simp [handle_location_add, pyTruthy, he, hp, hmem,
        Store.save_entity_locations, Reply.isOk]
  · intro st client e p he hp
    by_cases hmem : e ∈ st.entities
    · refine ⟨?_, ?_, ?_⟩ <;>
        simp [handle_location_remove, pyTruthy, he, hp, hmem,
          Store.save_entity_locations, Reply.isOk]
    · refine ⟨?_, ?_, ?_⟩ <;>
        simp [handle_location_remove, pyTruthy, he, hp, hmem, Reply.isOk]

/-- Witness for `router_event_append_spec`: a concrete successful
`role.register` appends exactly the one `role.registered` event. -/
theorem router_event_append_spec_witness :
    (handle_role_register false RoleRegistry.empty storeEx clientEx
        (some "hero") none 0 none [] "kh").1.isOk = true
    ∧ (handle_role_register false RoleRegistry.empty storeEx clientEx
        (some "hero") none 0 none [] "kh").2.2.1.events
        = storeEx.events ++ [⟨storeEx.next_event_id, "role.registered",
            some clientEx.session_id, some clientEx.client_name, none, none,
            "name=" ++ "hero" ++ " key=" ++ "kh", storeEx.clock⟩]
    ∧ (handle_role_register false RoleRegistry.empty storeEx clientEx
        (some "hero") none 0 none [] "kh").2.2.1.role_rows
        = dictSet storeEx.role_rows "kh"
            ⟨"kh", (Role.make "hero" none 0 none []).name,
             (if (Role.make "hero" none 0 none []).label = ""
              then (Role.make "hero" none 0 none []).name
              else (Role.make "hero" none 0 none []).label),
             (Role.make "hero" none 0 none []).order⟩
    ∧ (handle_role_register false RoleRegistry.empty storeEx clientEx
        (some "hero") none 0 none [] "kh").2.2.2
        = [⟨"role.registered", none, none, some clientEx.session_id,
            some (toString storeEx.next_event_id)⟩] :=
  router_event_append_spec.1 RoleRegistry.empty storeEx clientEx "hero" none 0
    none [] "kh" ⟨"kh", Role.make "hero" none 0 none []⟩ customReg
    (by decide) rfl

/-- Claim C1 is false as stated: a successful `relationship.create`
mutates the store and replies ok but appends no event at all — the
event log stays empty and the broadcast carries no event id. -/
theorem router_event_append_counterexample :
    (handle_relationship_create false relRegEx storeEx clientEx
        (some "s1") (some "t1") (some "member_of")).1.isOk = true
    ∧ (handle_relationship_create false relRegEx storeEx clientEx
        (some "s1") (some "t1") (some "member_of")).2.1.events = []
    ∧ (handle_relationship_create false relRegEx storeEx clientEx
        (some "s1") (some "t1") (some "member_of")).2.1.rel_rows
        = [⟨"s1", "t1", "r1"⟩]
    ∧ (handle_relationship_create false relRegEx storeEx clientEx
        (some "s1") (some "t1") (some "member_of")).2.2
        = [⟨"relationship.created", none, none, some 10, none⟩] :=
  ⟨by decide, by decide, by decide, by decide⟩

/-- Claim C2 (amended): when the persistence session raises after the
in-memory registration succeeded, `dispatch` returns an INTERNAL error
and the store is rolled back, but the in-memory registry is NOT
reverted — it keeps the newly registered entry and so differs from its
pre-request state. -/
theorem internal_error_no_revert (reg : RoleRegistry) (st : Store)
    (client : ClientInfo) (nm : String) (label : Option String) (order : Int)
    (pt : Option String) (al : List (String × String)) (fk : UUID)
    (rd : RoleDefinition) (reg2 : RoleRegistry)
    (hnm : nm ≠ "")
    (hreg : reg.register nm label order pt al none none false fk = (.ok rd, reg2)) :
    handle_role_register true reg st client (some nm) label order pt al fk
      = (.err .INTERNAL "Internal server error", reg2, st, [])
    ∧ dictHas reg2.by_name nm = true
    ∧ reg2 ≠ reg := by
  have hhas : dictHas reg.by_name nm = false := by
    cases hh : dictHas reg.by_name nm with
    | false => rfl
    | true => simp [RoleRegistry.register, hh] at hreg
  have hkey : dictHas reg.by_key fk = false := by
    cases hh : dictHas reg.by_key fk with
    | false => rfl
    | true => simp [RoleRegistry.register, hhas, hh] at hreg
  have hshape : reg2.by_name = dictSet reg.by_name nm fk := by
    simp only [RoleRegistry.register, hhas, hkey, Bool.false_eq_true, if_false,
      Option.getD_none, Prod.mk.injEq] at hreg
    rw [← hreg.2]
  have hmem : dictHas reg2.by_name nm = true := by
    rw [hshape]
    exact dictHas_set_self _ _ _
  refine ⟨?_, hmem, ?_⟩
  · simp [handle_role_register, pyTruthy, hnm, hreg]
  · intro hcontra
    rw [hcontra] at hmem
    rw [hhas] at hmem
    exact Bool.noConfusion hmem

/-- Witness for `internal_error_no_revert` at a concrete request. -/
theorem internal_error_no_revert_witness :
    handle_role_register true RoleRegistry.empty Store.emptyStore clientEx
        (some "hero") none 0 none [] "kh"
      = (.err .INTERNAL "Internal server error", customReg, Store.emptyStore, []) :=
  (internal_error_no_revert RoleRegistry.empty Store.emptyStore clientEx "hero"
    none 0 none [] "kh" ⟨"kh", Role.make "hero" none 0 none []⟩ customReg
    (by decide) rfl).1

/-- Claim C2 is false as stated: with a failing persistence session a
`role.register` replies INTERNAL while the in-memory registry still
holds the new role — it does not equal its state before the request. -/
theorem internal_error_no_revert_counterexample :
    handle_role_register true RoleRegistry.empty Store.emptyStore clientEx
        (some "hero") none 0 none [] "kh"
      = (.err .INTERNAL "Internal server error", customReg, Store.emptyStore, [])
    ∧ customReg ≠ RoleRegistry.empty :=
  ⟨rfl, by decide⟩

/-- Claim C7 (amended): `get_since_sequence` returns empty for an
unknown cursor, and for a known anchor returns events sorted by
`occurred_at` ascending; when the selection fits the row limit it
returns exactly the events whose `occurred_at` is *strictly greater*
than the anchor's — events sharing the anchor's timestamp are skipped,
and the id is never used as a tie-breaker. -/
theorem get_since_sequence_spec (events : List EventRow) (cursor limit : Nat) :
    (events.find? (fun ev => ev.id == cursor) = none →
      get_since_sequence events cursor limit = [])
    ∧ (∀ anchor, events.find? (fun ev => ev.id == cursor) = some anchor →
        List.Pairwise (fun a b => a.occurred_at ≤ b.occurred_at)
          (get_since_sequence events cursor limit)
        ∧ ((events.filter
              (fun ev => decide (anchor.occurred_at < ev.occurred_at))).length ≤ limit →
            ∀ ev, ev ∈ get_since_sequence events cursor limit ↔
              (ev ∈ events ∧ anchor.occurred_at < ev.occurred_at))) := by
  constructor
  · intro h
    simp [get_since_sequence, h]
  · intro anchor h
    have htrans : ∀ a b c : EventRow,
        decide (a.occurred_at ≤ b.occurred_at) = true →
        decide (b.occurred_at ≤ c.occurred_at) = true →
        decide (a.occurred_at ≤ c.occurred_at) = true := by
      intro a b c hab hbc
      simp only [decide_eq_true_eq] at hab hbc ⊢
      omega
    have htotal : ∀ a b : EventRow,
        (decide (a.occurred_at ≤ b.occurred_at)
          || decide (b.occurred_at ≤ a.occurred_at)) = true := by
      intro a b
      simp only [Bool.or_eq_true, decide_eq_true_eq]
      omega
    constructor
    · have hsorted := List.sorted_mergeSort htrans htotal
        (events.filter (fun ev => decide (anchor.occurred_at < ev.occurred_at)))
      have hpair : List.Pairwise (fun a b : EventRow => a.occurred_at ≤ b.occurred_at)
          ((events.filter
            (fun ev => decide (anchor.occurred_at < ev.occurred_at))).mergeSort
            (fun a b => decide (a.occurred_at ≤ b.occurred_at))) := by
        refine hsorted.imp ?_
        intro a b hab
        simpa using hab
      have : get_since_sequence events cursor limit
          = ((events.filter
              (fun ev => decide (anchor.occurred_at < ev.occurred_at))).mergeSort
              (fun a b => decide (a.occurred_at ≤ b.occurred_at))).take limit := by
        simp [get_since_sequence, h]
      rw [this]
      exact hpair.sublist (List.take_sublist _ _)
    · intro hlen ev
      have hperm := List.mergeSort_perm
        (events.filter (fun e2 => decide (anchor.occurred_at < e2.occurred_at)))
        (fun a b => decide (a.occurred_at ≤ b.occurred_at))
      have hlen2 : ((events.filter
            (fun e2 => decide (anchor.occurred_at < e2.occurred_at))).mergeSort
            (fun a b => decide (a.occurred_at ≤ b.occurred_at))).length ≤ limit := by
        rw [hperm.length_eq]
        exact hlen
      have htake : get_since_sequence events cursor limit
          = (events.filter
              (fun e2 => decide (anchor.occurred_at < e2.occurred_at))).mergeSort
              (fun a b => decide (a.occurred_at ≤ b.occurred_at)) := by
        simp only [get_since_sequence, h]
        exact List.take_of_length_le hlen2
      rw [htake]
      rw [hperm.mem_iff]
      simp [List.mem_filter]

/-- Witness for `get_since_sequence_spec`: replay after `evA` in a log
holding `evA` and the later `evC` is sorted (and equals `[evC]`). -/
theorem get_since_sequence_spec_witness :
    List.Pairwise (fun a b : EventRow => a.occurred_at ≤ b.occurred_at)
      (get_since_sequence [evA, evC] 1 500) :=
  ((get_since_sequence_spec [evA, evC] 1 500).2 evA rfl).1

/-- Claim C7 is false as stated: with `evA` (id 1) and `evB` (id 2)
sharing timestamp 5, `evB` is strictly after `evA` in the
occurred_at-then-id total order, so the claim requires replay from
cursor 1 to return `[evB]`; the code compares timestamps only and
returns `[]`. -/
theorem get_since_sequence_counterexample :
    get_since_sequence [evA, evB] 1 500 = []
    ∧ evB ∈ [evA, evB]
    ∧ evA.occurred_at = evB.occurred_at
    ∧ evA.id < evB.id := by
  refine ⟨?_, by decide, rfl, by decide⟩
  have h1 : [evA, evB].find? (fun ev => ev.id == 1) = some evA := rfl
  have h2 : [evA, evB].filter
      (fun ev => decide (evA.occurred_at < ev.occurred_at)) = [] := rfl
  simp [get_since_sequence, h1, h2]

end ForgeBridge
